import Mathlib

/-!
Verification development for the `Lightmap` component
(`Source/Samples/78_Lightmap/Lightmap.cpp` of the Urho3D-Lightmap repository).

The component is a single-session offscreen bake controller:
`BakeTexture` (the spec's StartBake) clones and mutates the target model's
material, tags the model with a capture view-mask bit, builds a capture rig
(camera node, orthographic camera, viewport, render texture, render surface),
and subscribes to the end-of-frame event; `HandlePostRender` (the spec's
Finalize) reads the rendered image back, restores the model, tears the rig
down, unsubscribes, writes the PNG and emits the completion event.

The embedding below is a state-transition model of that C++ file.  Engine
objects are represented by records holding exactly the attributes the sample
sets; side effects of the finalization handler are additionally recorded as an
explicit action trace so ordering properties can be stated.
-/

namespace Lightmap

/-- ASCII lower-casing of one character, used to model case-insensitive
substring matching on technique names. -/
def charLower (c : Char) : Char :=
  if 'A' ≤ c && c ≤ 'Z' then Char.ofNat (c.toNat + 32) else c

/-- Substring test on character lists: `hasSubstring pat s` is true iff some
contiguous run of `s` equals `pat`. -/
def hasSubstring (pat : List Char) : List Char → Bool
  | [] => pat.isEmpty
  | c :: rest => pat.isPrefixOf (c :: rest) || hasSubstring pat rest

/-- Modelled from the spec: the technique-name test
`technique->GetName().Find("NoTexture") != String::NPOS` at Lightmap.cpp:86.
The engine's `String::Find` lives in Urho3D container code that is not under
src/; the spec states the bake technique is "chosen by a case-insensitive
substring match", so the match is modelled case-insensitively. -/
def findNoTexture (name : String) : Bool :=
  hasSubstring (("NoTexture".data).map charLower) ((name.data).map charLower)

/-- Modelled from the spec: the normal-rendering view-mask constant from
Lightmap.h (the header is not under src/).  The spec calls it the ordinary
visibility flag restored at finalization; its concrete value is one fixed bit. -/
def ViewMask_Normal : Nat := 1

/-- Modelled from the spec: the capture view-mask constant from Lightmap.h
(the header is not under src/).  The spec's "capture visibility flag": a
dedicated bit distinct from the normal-rendering bit. -/
def ViewMask_Capture : Nat := 2

/-- A 3-component vector; float components are modelled as rationals. -/
structure Vector3 where
  x : Rat
  y : Rat
  z : Rat
deriving DecidableEq

/-- Componentwise vector subtraction. -/
def Vector3.sub (a b : Vector3) : Vector3 :=
  ⟨a.x - b.x, a.y - b.y, a.z - b.z⟩

/-- Modelled from the spec: the engine bounding box (engine code, not under
src/), reduced to the two queries the sample makes, `Center()` and
`HalfSize()`, kept directly as fields. -/
structure BoundingBox where
  center : Vector3
  halfSize : Vector3
deriving DecidableEq

/-- A material, reduced to the one attribute the sample reads and writes:
the technique in slot 0, identified by its resource name.  `Clone()` is a
content copy, so cloning is modelled as value copying of this record. -/
structure Material where
  technique0 : String
deriving DecidableEq

/-- The target static model: its current material, its view mask and its
world bounding box.  The sample assumes a material is assigned
(`GetMaterial()->Clone()` at Lightmap.cpp:80 is unguarded), so the material
field is total. -/
structure StaticModel where
  material : Material
  viewMask : Nat
  worldBoundingBox : BoundingBox
deriving DecidableEq

/-- The capture camera's scene node; the sample only sets its world position. -/
structure CamNode where
  worldPosition : Vector3
deriving DecidableEq

/-- The capture camera, with the attributes set in `InitRenderSurface`
(Lightmap.cpp:113-121). -/
structure Camera where
  fov : Rat
  nearClip : Rat
  aspect : Rat
  orthographic : Bool
  orthoSize : Rat × Rat
  viewMask : Nat
deriving DecidableEq

/-- Texture filtering mode; the sample uses bilinear. -/
inductive FilterMode where
  | bilinear
  | nearest
deriving DecidableEq

/-- Texture usage; the sample allocates a render target. -/
inductive TextureUsage where
  | renderTarget
  | staticUsage
deriving DecidableEq

/-- Render-surface update mode; the sample uses always-update. -/
inductive SurfaceUpdateMode where
  | updateAlways
  | updateVisible
deriving DecidableEq

/-- The offscreen texture, with the attributes set at Lightmap.cpp:127-130. -/
structure Texture2D where
  numLevels : Nat
  width : Nat
  height : Nat
  usage : TextureUsage
  filterMode : FilterMode
deriving DecidableEq

/-- The capture viewport; the sample copies the main renderer's render path
(Lightmap.cpp:123-124). -/
structure Viewport where
  renderPath : String
deriving DecidableEq

/-- The texture's render surface, with the attributes set at
Lightmap.cpp:132-134. -/
structure RenderSurface where
  updateMode : SurfaceUpdateMode
  viewportBound : Bool
deriving DecidableEq

/-- The capture rig: the five engine objects created together in
`InitRenderSurface` and released together in `Stop`. -/
structure Rig where
  camNode : CamNode
  camera : Camera
  viewport : Viewport
  renderTexture : Texture2D
  renderSurface : RenderSurface
deriving DecidableEq

/-- The whole observable world of one `Lightmap` component: the session's own
members (Lightmap.h fields, the header's field list mirrored from the .cpp's
uses), the borrowed model, and the externally visible effects (saved files,
completion events). -/
structure LightmapState where
  texWidth : Nat
  texHeight : Nat
  saveFile : Bool
  filepath : String
  origMaterial : Option Material
  nodeId : Nat
  nodeWorldPosition : Vector3
  model : Option StaticModel
  mainRenderPath : String
  rig : Option Rig
  subscribedEndFrame : Bool
  renderedImage : Bool
  savedFiles : List String
  notificationsSent : Nat
deriving DecidableEq

/-- One side effect of the finalization handler, recorded in order. -/
inductive Action where
  | getImage
  | setMaterial
  | setViewMask
  | removeCamNode
  | unsubscribeEndFrame
  | savePNG (path : String)
  | sendLightmapDone
deriving DecidableEq

/-- `Lightmap::InitRenderSurface` (Lightmap.cpp:105-135): create the camera
node at `worldBoundingBox.Center() - Vector3(0, 0, halfSize.z_)`, configure
the camera, build viewport, render texture and render surface. -/
def initRenderSurface (s : LightmapState) (worldBoundingBox : BoundingBox) :
    LightmapState :=
  let camNode : CamNode :=
    { worldPosition :=
        Vector3.sub worldBoundingBox.center ⟨0, 0, worldBoundingBox.halfSize.z⟩ }
  let camera : Camera :=
    { fov := 90
      nearClip := 1 / 10000
      aspect := 1
      orthographic := true
      orthoSize := ((s.texWidth : Rat), (s.texHeight : Rat))
      viewMask := ViewMask_Capture }
  let vp : Viewport := { renderPath := s.mainRenderPath }
  let tex : Texture2D :=
    { numLevels := 1
      width := s.texWidth
      height := s.texHeight
      usage := TextureUsage.renderTarget
      filterMode := FilterMode.bilinear }
  let surf : RenderSurface :=
    { updateMode := SurfaceUpdateMode.updateAlways, viewportBound := true }
  { s with rig := some { camNode := camNode, camera := camera, viewport := vp,
                         renderTexture := tex, renderSurface := surf } }

/-- `Lightmap::BakeTexture` (Lightmap.cpp:66-103), the spec's StartBake.
The component is attached to a node (`node_` non-null); the node may or may
not carry a `StaticModel`, which is the `s.model` option. -/
def bakeTexture (s : LightmapState) (filepath : String) (imageSize : Nat) :
    LightmapState :=
  let s := { s with texWidth := imageSize, texHeight := imageSize,
                    filepath := filepath }
  match s.model with
  | none => s
  | some sm =>
      let origMaterial := sm.material
      let dupMat : Material :=
        if findNoTexture sm.material.technique0 then
          { technique0 := "Lightmap/Techniques/NoTextureBake.xml" }
        else
          { technique0 := "Lightmap/Techniques/DiffBake.xml" }
      let sm := { sm with material := dupMat,
                          viewMask := sm.viewMask ||| ViewMask_Capture }
      let s := { s with model := some sm, origMaterial := some origMaterial }
      let s := initRenderSurface s sm.worldBoundingBox
      { s with subscribedEndFrame := true }

/-- `Lightmap::RestoreStaticModel` (Lightmap.cpp:137-142): reinstall the
retained original material and set the view mask back to the fixed normal
constant.  `staticModel_` and `origMaterial_` are always set before the
handler can run; the fallthrough branches mirror what the pointers would
carry and are unreachable during a capture session. -/
def restoreStaticModel (s : LightmapState) : LightmapState × List Action :=
  let s :=
    match s.model with
    | none => s
    | some sm =>
        let restored :=
          match s.origMaterial with
          | some om => om
          | none => sm.material
        { s with model := some { sm with material := restored,
                                         viewMask := ViewMask_Normal } }
  (s, [Action.setMaterial, Action.setViewMask])

/-- `Lightmap::Stop` (Lightmap.cpp:144-154): remove the camera node (which
destroys the rig's scene objects), drop all rig references and unsubscribe
from the end-of-frame event. -/
def stop (s : LightmapState) : LightmapState × List Action :=
  ({ s with rig := none, subscribedEndFrame := false },
   [Action.removeCamNode, Action.unsubscribeEndFrame])

/-- The file name built at Lightmap.cpp:171: `ToString("node%u_bake.png", id)`. -/
def bakeFileName (nodeId : Nat) : String :=
  "node" ++ toString nodeId ++ "_bake.png"

/-- `Lightmap::OutputFile` (Lightmap.cpp:166-177): when the save flag is set,
write the PNG to `filepath_ + name` (plain string concatenation, no separator
inserted). -/
def outputFile (s : LightmapState) : LightmapState × List Action :=
  if s.saveFile then
    let path := s.filepath ++ bakeFileName s.nodeId
    ({ s with savedFiles := s.savedFiles ++ [path] }, [Action.savePNG path])
  else
    (s, [])

/-- `Lightmap::SendMsg` (Lightmap.cpp:156-164): broadcast the
`E_LIGTHMAPDONE` completion event carrying the owning node. -/
def sendMsg (s : LightmapState) : LightmapState × List Action :=
  ({ s with notificationsSent := s.notificationsSent + 1 },
   [Action.sendLightmapDone])

/-- `Lightmap::HandlePostRender` (Lightmap.cpp:179-192), the spec's Finalize:
read the image back first, then restore the model, tear down, write the file
and send the completion message last. -/
def handlePostRender (s : LightmapState) : LightmapState × List Action :=
  let s0 := { s with renderedImage := true }
  let p1 := restoreStaticModel s0
  let p2 := stop p1.1
  let p3 := outputFile p2.1
  let p4 := sendMsg p3.1
  (p4.1, Action.getImage :: (p1.2 ++ p2.2 ++ p3.2 ++ p4.2))

/-- One engine end-of-frame boundary: the `E_ENDFRAME` event fires the
handler exactly when the component is subscribed. -/
def endFrame (s : LightmapState) : LightmapState :=
  if s.subscribedEndFrame then (handlePostRender s).1 else s

/-- Iterated end-of-frame boundaries. -/
def endFrames : Nat → LightmapState → LightmapState
  | 0, s => s
  | k + 1, s => endFrames k (endFrame s)

/-- The engine-observable part of a state: the borrowed model, the capture
rig, the event subscription, the files written and the completion events
sent.  The remaining fields are the session's private members. -/
def observable (s : LightmapState) :
    Option StaticModel × Option Rig × Bool × List String × Nat :=
  (s.model, s.rig, s.subscribedEndFrame, s.savedFiles, s.notificationsSent)

/-- An idle session: no capture rig and no end-of-frame subscription, the
state the constructor produces and the state finalization returns to. -/
def Idle (s : LightmapState) : Prop :=
  s.rig = none ∧ s.subscribedEndFrame = false

/-- States reachable from an idle state through the component's two entry
points: a `BakeTexture` call or an engine end-of-frame boundary. -/
inductive Reachable : LightmapState → Prop where
  | start (s : LightmapState) : Idle s → Reachable s
  | bake (s : LightmapState) (fp : String) (n : Nat) :
      Reachable s → Reachable (bakeTexture s fp n)
  | frame (s : LightmapState) :
      Reachable s → Reachable (endFrame s)

/-- A sample static model for concrete runs. -/
def mkModel (tech : String) (mask : Nat) (c h : Vector3) : StaticModel :=
  { material := { technique0 := tech }
    viewMask := mask
    worldBoundingBox := { center := c, halfSize := h } }

/-- A component state as produced by the constructor (Lightmap.cpp:49-55:
512 by 512, save flag set), attached to node 7 of a sample scene. -/
def mkState (model : Option StaticModel) : LightmapState :=
  { texWidth := 512
    texHeight := 512
    saveFile := true
    filepath := ""
    origMaterial := none
    nodeId := 7
    nodeWorldPosition := ⟨0, 0, 0⟩
    model := model
    mainRenderPath := "RenderPaths/Forward.xml"
    rig := none
    subscribedEndFrame := false
    renderedImage := false
    savedFiles := []
    notificationsSent := 0 }

end Lightmap

namespace Lightmap

/-- A sample model used by concrete witness runs: an ordinary textured
technique, the normal view mask, a box of half-depth 2 centred at the origin. -/
def sampleModel : StaticModel := mkModel "Tech/Diff.xml" 1 ⟨0, 0, 0⟩ ⟨1, 1, 2⟩

/-- A sample component state holding `sampleModel`. -/
def sampleState : LightmapState := mkState (some sampleModel)

/-- Recogniser for file-writing actions in a trace. -/
def isSavePNG : Action → Bool
  | Action.savePNG _ => true
  | _ => false

/-- An unsubscribed component ignores an end-of-frame boundary. -/
theorem endFrame_unsub (s : LightmapState) (h : s.subscribedEndFrame = false) :
    endFrame s = s := by
  simp [endFrame, h]

/-- An unsubscribed component ignores any number of end-of-frame boundaries. -/
theorem endFrames_unsub (k : Nat) (s : LightmapState)
    (h : s.subscribedEndFrame = false) : endFrames k s = s := by
  induction k with
  | zero => rfl
  | succ j ih =>
      show endFrames j (endFrame s) = s
      rw [endFrame_unsub s h]
      exact ih

/-- After the finalization handler the rig is gone, the subscription is gone
and exactly one more completion event has been sent. -/
theorem handlePostRender_fields (s : LightmapState) :
    ((handlePostRender s).1).rig = none
    ∧ ((handlePostRender s).1).subscribedEndFrame = false
    ∧ ((handlePostRender s).1).notificationsSent = s.notificationsSent + 1 := by
  cases hm : s.model <;> cases hsf : s.saveFile <;>
    simp [handlePostRender, restoreStaticModel, stop, outputFile, sendMsg, hm, hsf]

/-- In every finalization trace, the unsubscription is the fifth action and
the completion event is the last one. -/
theorem handlePostRender_trace_ends (s : LightmapState) :
    ((handlePostRender s).2)[4]? = some Action.unsubscribeEndFrame
    ∧ ((handlePostRender s).2).getLast? = some Action.sendLightmapDone := by
  cases hm : s.model <;> cases hsf : s.saveFile <;>
    simp [handlePostRender, restoreStaticModel, stop, outputFile, sendMsg, hm, hsf]

/-- A `BakeTexture` call never sends a completion event itself. -/
theorem bakeTexture_notifications (s : LightmapState) (fp : String) (n : Nat) :
    (bakeTexture s fp n).notificationsSent = s.notificationsSent := by
  cases hm : s.model <;> simp [bakeTexture, hm, initRenderSurface]

/-- A `BakeTexture` call on a node with a model subscribes to the
end-of-frame event. -/
theorem bakeTexture_subscribes (s : LightmapState) (m : StaticModel)
    (fp : String) (n : Nat) (h : s.model = some m) :
    (bakeTexture s fp n).subscribedEndFrame = true := by
  simp [bakeTexture, h, initRenderSurface]

/-- C3 (confirmed).  Finalize ordering: the end-of-frame handler first reads
the image back from the offscreen target, then restores the model's material
and mask, then removes the camera node (rig teardown) and unsubscribes, then
writes the file, and emits the completion notification as the very last
action, with nothing after it. -/
theorem finalize_action_order (s : LightmapState) (h : s.saveFile = true) :
    (handlePostRender s).2 =
      [Action.getImage, Action.setMaterial, Action.setViewMask,
       Action.removeCamNode, Action.unsubscribeEndFrame,
       Action.savePNG (s.filepath ++ bakeFileName s.nodeId),
       Action.sendLightmapDone]
    ∧ ((handlePostRender s).2).head? = some Action.getImage
    ∧ ((handlePostRender s).2).getLast? = some Action.sendLightmapDone := by
  have ht : (handlePostRender s).2 =
      [Action.getImage, Action.setMaterial, Action.setViewMask,
       Action.removeCamNode, Action.unsubscribeEndFrame,
       Action.savePNG (s.filepath ++ bakeFileName s.nodeId),
       Action.sendLightmapDone] := by
    cases hm : s.model <;>
      simp [handlePostRender, restoreStaticModel, stop, outputFile, sendMsg, h, hm]
  exact ⟨ht, by rw [ht]; rfl, by rw [ht]; rfl⟩

/-- Witness for C3 at a concrete state with the save flag set. -/
theorem finalize_action_order_witness :
    sampleState.saveFile = true
    ∧ ((handlePostRender sampleState).2 =
        [Action.getImage, Action.setMaterial, Action.setViewMask,
         Action.removeCamNode, Action.unsubscribeEndFrame,
         Action.savePNG (sampleState.filepath ++ bakeFileName sampleState.nodeId),
         Action.sendLightmapDone]
      ∧ ((handlePostRender sampleState).2).head? = some Action.getImage
      ∧ ((handlePostRender sampleState).2).getLast? = some Action.sendLightmapDone) :=
  ⟨rfl, finalize_action_order sampleState rfl⟩

/-- C4 (confirmed).  Missing-model no-op: a `BakeTexture` call on a node
without a `StaticModel` changes nothing observable — no rig, no
subscription, no file, and no completion event, even across any number of
later frames.  (Only the session's private parameter fields are recorded.) -/
theorem bake_without_model_is_noop (s : LightmapState) (fp : String) (n : Nat)
    (h : s.model = none) (hidle : s.subscribedEndFrame = false) :
    observable (bakeTexture s fp n) = observable s
    ∧ ∀ k, observable (endFrames k (bakeTexture s fp n)) = observable s := by
  have hb : bakeTexture s fp n =
      { s with texWidth := n, texHeight := n, filepath := fp } := by
    simp [bakeTexture, h]
  have hsub : (bakeTexture s fp n).subscribedEndFrame = false := by
    rw [hb]; exact hidle
  refine ⟨by rw [hb]; rfl, fun k => ?_⟩
  rw [endFrames_unsub k _ hsub, hb]
  rfl

/-- Witness for C4 on a concrete model-less idle state. -/
theorem bake_without_model_is_noop_witness :
    (mkState none).model = none
    ∧ (mkState none).subscribedEndFrame = false
    ∧ (observable (bakeTexture (mkState none) "out/" 256) = observable (mkState none)
      ∧ ∀ k, observable (endFrames k (bakeTexture (mkState none) "out/" 256))
          = observable (mkState none)) :=
  ⟨rfl, rfl, bake_without_model_is_noop (mkState none) "out/" 256 rfl rfl⟩

/-- C6 (confirmed).  Orthographic framing: whenever `BakeTexture` proceeds to
rig construction, the capture camera is orthographic and its orthographic
size is exactly the requested pixel dimensions in both components. -/
theorem capture_camera_orthographic_size (s : LightmapState) (m : StaticModel)
    (fp : String) (n : Nat) (h : s.model = some m) :
    ((bakeTexture s fp n).rig.map fun r =>
        (r.camera.orthographic, r.camera.orthoSize))
      = some (true, ((n : Rat), (n : Rat))) := by
  simp [bakeTexture, h, initRenderSurface]

/-- Witness for C6 at a concrete state and size 256. -/
theorem capture_camera_orthographic_size_witness :
    sampleState.model = some sampleModel
    ∧ ((bakeTexture sampleState "out/" 256).rig.map fun r =>
          (r.camera.orthographic, r.camera.orthoSize))
        = some (true, ((256 : Nat) : Rat), ((256 : Nat) : Rat)) :=
  ⟨rfl, capture_camera_orthographic_size sampleState sampleModel "out/" 256 rfl⟩

/-- C10 (confirmed).  Capture-mask discipline: during the capture phase the
model's view mask is its pre-bake mask with the capture bit OR-ed in (every
pre-bake bit is preserved), while the capture camera's view mask is exactly
the capture flag. -/
theorem capture_view_masks (s : LightmapState) (m : StaticModel)
    (fp : String) (n : Nat) (h : s.model = some m) :
    ((bakeTexture s fp n).model.map fun mm => mm.viewMask)
        = some (m.viewMask ||| ViewMask_Capture)
    ∧ ((bakeTexture s fp n).rig.map fun r => r.camera.viewMask)
        = some ViewMask_Capture
    ∧ (∀ i : Nat, m.viewMask.testBit i = true →
        (m.viewMask ||| ViewMask_Capture).testBit i = true) := by
  refine ⟨?_, ?_, ?_⟩
  · simp [bakeTexture, h, initRenderSurface]
  · simp [bakeTexture, h, initRenderSurface]
  · intro i hi
    simp [Nat.testBit_or, hi]

/-- Witness for C10 on a concrete model with pre-bake mask 1. -/
theorem capture_view_masks_witness :
    sampleState.model = some sampleModel
    ∧ (((bakeTexture sampleState "out/" 256).model.map fun mm => mm.viewMask)
          = some (sampleModel.viewMask ||| ViewMask_Capture)
      ∧ ((bakeTexture sampleState "out/" 256).rig.map fun r => r.camera.viewMask)
          = some ViewMask_Capture
      ∧ (∀ i : Nat, sampleModel.viewMask.testBit i = true →
          (sampleModel.viewMask ||| ViewMask_Capture).testBit i = true)) :=
  ⟨rfl, capture_view_masks sampleState sampleModel "out/" 256 rfl⟩

end Lightmap

namespace Lightmap

/-- C1 counterexample.  A model whose pre-bake view mask is 4: after the full
bake-and-finalize cycle the mask is the fixed constant `ViewMask_Normal`,
not the pre-bake value, so mask restoration is not bit-for-bit. -/
theorem finalize_mask_not_prebake_value :
    (mkModel "Tech/Diff.xml" 4 ⟨0, 0, 0⟩ ⟨1, 1, 2⟩).viewMask = 4
    ∧ (((handlePostRender (bakeTexture
          (mkState (some (mkModel "Tech/Diff.xml" 4 ⟨0, 0, 0⟩ ⟨1, 1, 2⟩)))
          "out/" 256)).1).model.map fun mm => mm.viewMask) = some ViewMask_Normal
    ∧ ViewMask_Normal ≠ 4 := by
  refine ⟨rfl, ?_, by decide⟩
  decide

/-- C1 (corrected).  After finalization the model's material content is
restored bit-for-bit and its view mask is set to the fixed normal constant;
both mutations are reverted together on the sole finalization path, but the
mask equals its pre-bake value only when that value was `ViewMask_Normal`. -/
theorem finalize_restores_material_and_normal_mask
    (s : LightmapState) (m : StaticModel) (fp : String) (n : Nat)
    (h : s.model = some m) :
    (((handlePostRender (bakeTexture s fp n)).1).model.map fun mm => mm.material)
        = some m.material
    ∧ (((handlePostRender (bakeTexture s fp n)).1).model.map fun mm => mm.viewMask)
        = some ViewMask_Normal
    ∧ (m.viewMask = ViewMask_Normal →
        (((handlePostRender (bakeTexture s fp n)).1).model.map fun mm => mm.viewMask)
          = some m.viewMask) := by
  cases hsf : s.saveFile <;>
    cases hf : findNoTexture m.material.technique0 <;>
      simp [handlePostRender, bakeTexture, h, hf, initRenderSurface,
            restoreStaticModel, stop, outputFile, sendMsg, hsf] <;>
        exact fun hh => hh.symm

/-- Witness for C1 on a concrete model whose pre-bake mask is the normal one. -/
theorem finalize_restores_material_and_normal_mask_witness :
    sampleState.model = some sampleModel
    ∧ ((((handlePostRender (bakeTexture sampleState "out/" 256)).1).model.map
          fun mm => mm.material) = some sampleModel.material
      ∧ (((handlePostRender (bakeTexture sampleState "out/" 256)).1).model.map
          fun mm => mm.viewMask) = some ViewMask_Normal
      ∧ (sampleModel.viewMask = ViewMask_Normal →
          (((handlePostRender (bakeTexture sampleState "out/" 256)).1).model.map
            fun mm => mm.viewMask) = some sampleModel.viewMask)) :=
  ⟨rfl, finalize_restores_material_and_normal_mask sampleState sampleModel "out/" 256 rfl⟩

/-- C2 counterexample.  A model whose original first technique is already the
diffuse bake asset: the name carries no no-texture marker, so the diffuse
bake technique is installed — and the installed name equals the original
name, contradicting the claim that it always differs. -/
theorem bake_technique_name_can_equal_original :
    findNoTexture "Lightmap/Techniques/DiffBake.xml" = false
    ∧ ((mkState (some (mkModel "Lightmap/Techniques/DiffBake.xml" 1 ⟨0, 0, 0⟩
          ⟨1, 1, 2⟩))).model.map fun mm => mm.material.technique0)
        = some "Lightmap/Techniques/DiffBake.xml"
    ∧ ((bakeTexture (mkState (some (mkModel "Lightmap/Techniques/DiffBake.xml" 1
          ⟨0, 0, 0⟩ ⟨1, 1, 2⟩))) "out/" 256).model.map
            fun mm => mm.material.technique0)
        = some "Lightmap/Techniques/DiffBake.xml" := by
  refine ⟨by decide, rfl, ?_⟩
  decide

/-- C2 (corrected).  Technique selection: a case-insensitive "NoTexture"
match on the original first technique's name installs the no-texture bake
technique, any other name installs the diffuse bake technique; the installed
name differs from the original whenever the original was not itself the
installed bake asset. -/
theorem bake_installs_selected_technique
    (s : LightmapState) (m : StaticModel) (fp : String) (n : Nat)
    (h : s.model = some m) :
    ((bakeTexture s fp n).model.map fun mm => mm.material.technique0)
        = some (if findNoTexture m.material.technique0 = true then
                  "Lightmap/Techniques/NoTextureBake.xml"
                else "Lightmap/Techniques/DiffBake.xml")
    ∧ (findNoTexture m.material.technique0 = true →
        m.material.technique0 ≠ "Lightmap/Techniques/NoTextureBake.xml" →
        ((bakeTexture s fp n).model.map fun mm => mm.material.technique0)
          ≠ some m.material.technique0)
    ∧ (findNoTexture m.material.technique0 = false →
        m.material.technique0 ≠ "Lightmap/Techniques/DiffBake.xml" →
        ((bakeTexture s fp n).model.map fun mm => mm.material.technique0)
          ≠ some m.material.technique0) := by
  cases hf : findNoTexture m.material.technique0 <;>
    simp [bakeTexture, h, hf, initRenderSurface] <;>
      exact fun hne => fun hc => hne hc.symm

/-- Witness for C2 on a concrete model with a no-texture original technique. -/
theorem bake_installs_selected_technique_witness :
    (mkState (some (mkModel "Stone/NoTextureTech.xml" 1 ⟨0, 0, 0⟩ ⟨1, 1, 2⟩))).model
        = some (mkModel "Stone/NoTextureTech.xml" 1 ⟨0, 0, 0⟩ ⟨1, 1, 2⟩)
    ∧ (((bakeTexture (mkState (some (mkModel "Stone/NoTextureTech.xml" 1 ⟨0, 0, 0⟩
            ⟨1, 1, 2⟩))) "out/" 64).model.map fun mm => mm.material.technique0)
          = some (if findNoTexture
                      (mkModel "Stone/NoTextureTech.xml" 1 ⟨0, 0, 0⟩
                        ⟨1, 1, 2⟩).material.technique0 = true then
                    "Lightmap/Techniques/NoTextureBake.xml"
                  else "Lightmap/Techniques/DiffBake.xml")
      ∧ (findNoTexture (mkModel "Stone/NoTextureTech.xml" 1 ⟨0, 0, 0⟩
            ⟨1, 1, 2⟩).material.technique0 = true →
          (mkModel "Stone/NoTextureTech.xml" 1 ⟨0, 0, 0⟩
              ⟨1, 1, 2⟩).material.technique0
            ≠ "Lightmap/Techniques/NoTextureBake.xml" →
          ((bakeTexture (mkState (some (mkModel "Stone/NoTextureTech.xml" 1 ⟨0, 0, 0⟩
              ⟨1, 1, 2⟩))) "out/" 64).model.map fun mm => mm.material.technique0)
            ≠ some (mkModel "Stone/NoTextureTech.xml" 1 ⟨0, 0, 0⟩
                ⟨1, 1, 2⟩).material.technique0)
      ∧ (findNoTexture (mkModel "Stone/NoTextureTech.xml" 1 ⟨0, 0, 0⟩
            ⟨1, 1, 2⟩).material.technique0 = false →
          (mkModel "Stone/NoTextureTech.xml" 1 ⟨0, 0, 0⟩
              ⟨1, 1, 2⟩).material.technique0
            ≠ "Lightmap/Techniques/DiffBake.xml" →
          ((bakeTexture (mkState (some (mkModel "Stone/NoTextureTech.xml" 1 ⟨0, 0, 0⟩
              ⟨1, 1, 2⟩))) "out/" 64).model.map fun mm => mm.material.technique0)
            ≠ some (mkModel "Stone/NoTextureTech.xml" 1 ⟨0, 0, 0⟩
                ⟨1, 1, 2⟩).material.technique0)) :=
  ⟨rfl, bake_installs_selected_technique _ _ "out/" 64 rfl⟩

end Lightmap

namespace Lightmap

/-- A component state whose node sits at the origin while the model's world
bounding box is centred at (10, 0, 0) with half-depth 2 — a model whose
geometry is offset from its node. -/
def offsetState : LightmapState :=
  { mkState (some (mkModel "Tech/Diff.xml" 1 ⟨10, 0, 0⟩ ⟨1, 1, 2⟩)) with
      nodeWorldPosition := ⟨0, 0, 0⟩ }

/-- C5 counterexample.  With the model's node at the origin but its bounding
box centred at (10, 0, 0) with half-depth 2, the capture camera lands at
(10, 0, -2), not at the node position minus (0, 0, 2) = (0, 0, -2). -/
theorem capture_camera_not_at_node_position :
    offsetState.nodeWorldPosition = ⟨0, 0, 0⟩
    ∧ ((bakeTexture offsetState "out/" 256).rig.map fun r => r.camNode.worldPosition)
        = some ⟨10, 0, -2⟩
    ∧ Vector3.sub offsetState.nodeWorldPosition ⟨0, 0, 2⟩ = ⟨0, 0, -2⟩
    ∧ (⟨10, 0, -2⟩ : Vector3) ≠ (⟨0, 0, -2⟩ : Vector3) := by
  refine ⟨rfl, ?_, ?_, ?_⟩
  · simp [offsetState, mkState, mkModel, bakeTexture, initRenderSurface,
          findNoTexture, hasSubstring, charLower, Vector3.sub]
  · simp [offsetState, mkState, Vector3.sub]
  · simp [Vector3.mk.injEq]

/-- C5 (corrected).  Capture camera placement: after `BakeTexture` the
capture camera's world position is the model's world bounding-box centre
minus (0, 0, h), where h is the box's half-depth along z — the node's own
world position plays no role. -/
theorem capture_camera_at_bbox_center_offset
    (s : LightmapState) (m : StaticModel) (fp : String) (n : Nat)
    (h : s.model = some m) :
    ((bakeTexture s fp n).rig.map fun r => r.camNode.worldPosition)
      = some (Vector3.sub m.worldBoundingBox.center
                ⟨0, 0, m.worldBoundingBox.halfSize.z⟩) := by
  simp [bakeTexture, h, initRenderSurface]

/-- Witness for C5 on the offset model. -/
theorem capture_camera_at_bbox_center_offset_witness :
    offsetState.model = some (mkModel "Tech/Diff.xml" 1 ⟨10, 0, 0⟩ ⟨1, 1, 2⟩)
    ∧ ((bakeTexture offsetState "out/" 256).rig.map fun r => r.camNode.worldPosition)
        = some (Vector3.sub
            (mkModel "Tech/Diff.xml" 1 ⟨10, 0, 0⟩ ⟨1, 1, 2⟩).worldBoundingBox.center
            ⟨0, 0, (mkModel "Tech/Diff.xml" 1 ⟨10, 0, 0⟩
                ⟨1, 1, 2⟩).worldBoundingBox.halfSize.z⟩) :=
  ⟨rfl, capture_camera_at_bbox_center_offset offsetState _ "out/" 256 rfl⟩

/-- C7 counterexample.  With output directory string "out" (no trailing
separator) and node id 7, the file is written to "outnode7_bake.png": the
code inserts no separator between directory and name, so the written path is
not "out/node7_bake.png". -/
theorem output_path_has_no_separator :
    ((handlePostRender (bakeTexture
        (mkState (some (mkModel "Tech/Diff.xml" 1 ⟨0, 0, 0⟩ ⟨1, 1, 2⟩)))
        "out" 256)).1).savedFiles = ["outnode7_bake.png"]
    ∧ ("outnode7_bake.png" : String) ≠ "out" ++ "/" ++ bakeFileName 7
    ∧ ("out" ++ "/" ++ bakeFileName 7 : String) ∉
        ((handlePostRender (bakeTexture
            (mkState (some (mkModel "Tech/Diff.xml" 1 ⟨0, 0, 0⟩ ⟨1, 1, 2⟩)))
            "out" 256)).1).savedFiles := by
  refine ⟨?_, by decide, ?_⟩ <;> decide

/-- C7 (corrected).  Output file contract: finalization appends exactly one
written file — the concatenation of the output directory string and
`node<ID>_bake.png`, with no separator inserted — if and only if the save
flag is set, and the trace contains exactly that many write actions. -/
theorem finalize_file_output (s : LightmapState) :
    ((handlePostRender s).1).savedFiles =
      s.savedFiles ++
        (if s.saveFile = true then [s.filepath ++ bakeFileName s.nodeId] else [])
    ∧ ((handlePostRender s).2).countP isSavePNG =
        (if s.saveFile = true then 1 else 0) := by
  cases hm : s.model <;> cases hsf : s.saveFile <;>
    simp [handlePostRender, restoreStaticModel, stop, outputFile, sendMsg,
          hm, hsf, isSavePNG]

/-- C8 (confirmed).  Single-shot completion: starting a bake on a model and
then running any positive number of end-of-frame boundaries delivers the
completion notification exactly once and leaves the subscription cleared;
within the finalization trace the unsubscription (index 4) precedes the
completion notification, which is the last action. -/
theorem completion_sent_exactly_once
    (s : LightmapState) (m : StaticModel) (fp : String) (n : Nat)
    (h : s.model = some m) :
    (∀ k, 1 ≤ k →
        (endFrames k (bakeTexture s fp n)).notificationsSent
            = s.notificationsSent + 1
        ∧ (endFrames k (bakeTexture s fp n)).subscribedEndFrame = false)
    ∧ ((handlePostRender (bakeTexture s fp n)).2)[4]?
        = some Action.unsubscribeEndFrame
    ∧ ((handlePostRender (bakeTexture s fp n)).2).getLast?
        = some Action.sendLightmapDone := by
  refine ⟨?_, (handlePostRender_trace_ends _).1, (handlePostRender_trace_ends _).2⟩
  intro k hk
  obtain ⟨j, rfl⟩ : ∃ j, k = j + 1 := ⟨k - 1, (Nat.succ_pred_eq_of_pos hk).symm⟩
  have hstep : endFrames (j + 1) (bakeTexture s fp n)
      = endFrames j ((handlePostRender (bakeTexture s fp n)).1) := by
    show endFrames j (endFrame (bakeTexture s fp n)) = _
    rw [endFrame, if_pos (bakeTexture_subscribes s m fp n h)]
  have hfix : endFrames j ((handlePostRender (bakeTexture s fp n)).1)
      = (handlePostRender (bakeTexture s fp n)).1 :=
    endFrames_unsub j _ (handlePostRender_fields _).2.1
  rw [hstep, hfix]
  refine ⟨?_, (handlePostRender_fields _).2.1⟩
  rw [(handlePostRender_fields _).2.2, bakeTexture_notifications]

/-- Witness for C8 on the sample state, two frames after the bake call. -/
theorem completion_sent_exactly_once_witness :
    sampleState.model = some sampleModel
    ∧ ((∀ k, 1 ≤ k →
          (endFrames k (bakeTexture sampleState "out/" 512)).notificationsSent
              = sampleState.notificationsSent + 1
          ∧ (endFrames k (bakeTexture sampleState "out/" 512)).subscribedEndFrame
              = false)
      ∧ ((handlePostRender (bakeTexture sampleState "out/" 512)).2)[4]?
          = some Action.unsubscribeEndFrame
      ∧ ((handlePostRender (bakeTexture sampleState "out/" 512)).2).getLast?
          = some Action.sendLightmapDone) :=
  ⟨rfl, completion_sent_exactly_once sampleState sampleModel "out/" 512 rfl⟩

/-- C9 (confirmed).  Rig lifecycle invariant: in every state reachable from
an idle session through bake calls and frame boundaries, the capture rig —
the record bundling camera node, camera, viewport, render texture and render
surface, created as one in `InitRenderSurface` and dropped as one in `Stop` —
exists exactly when the session is between a successful setup and its
finalization (its end-of-frame subscription is live). -/
theorem rig_exists_iff_capturing (s : LightmapState) (h : Reachable s) :
    s.rig.isSome = true ↔ s.subscribedEndFrame = true := by
  induction h with
  | start s hs => rw [hs.1, hs.2]; simp
  | bake s fp n hr ih =>
      cases hm : s.model with
      | none =>
          have hb : bakeTexture s fp n =
              { s with texWidth := n, texHeight := n, filepath := fp } := by
            simp [bakeTexture, hm]
          rw [hb]
          exact ih
      | some m => simp [bakeTexture, hm, initRenderSurface]
  | frame s hr ih =>
      cases hsub : s.subscribedEndFrame with
      | false => rw [endFrame_unsub s hsub]; exact ih
      | true =>
          have hh := handlePostRender_fields s
          rw [endFrame, if_pos hsub, hh.1, hh.2.1]
          simp

/-- Witness for C9 at the reachable state right after a bake call. -/
theorem rig_exists_iff_capturing_witness :
    Reachable (bakeTexture sampleState "out/" 256)
    ∧ ((bakeTexture sampleState "out/" 256).rig.isSome = true
        ↔ (bakeTexture sampleState "out/" 256).subscribedEndFrame = true) :=
  ⟨Reachable.bake sampleState "out/" 256 (Reachable.start sampleState ⟨rfl, rfl⟩),
   rig_exists_iff_capturing (bakeTexture sampleState "out/" 256)
     (Reachable.bake sampleState "out/" 256 (Reachable.start sampleState ⟨rfl, rfl⟩))⟩

end Lightmap
